import Mathlib

/-!
Verification development for the retail ingestion/analytics repository.

The repository has two programs:
* `01_data_analysis_with_sql_and_python/analysis.py` — normalizes the UCI
  online-retail dataset, loads it into a PostgreSQL table once (idempotent
  bulk load via `COPY`), and runs a multi-statement SQL script.
* `02_sales_data_transformation_and_aggregation/pipeline.py` — a Spark
  pipeline that re-reads the CSV, normalizes it, and computes aggregates
  (total sales, transactions per day, top-10 products).

Each definition below is a shallow embedding of a function of those files
(named after it); doc comments note which source lines they model and where
library semantics (pandas, psycopg2, Spark) had to be embedded.
-/

namespace Py

/--
Python's `str.split(sep)` for a one-character separator, over the
character list: consecutive separators yield empty fragments and a
trailing separator yields a trailing empty fragment
(`"a;;b;".split(';') == ["a", "", "b", ""]`).
-/
def splitCharAux (sep : Char) : List Char → List Char → List String
  | [], acc => [String.mk acc.reverse]
  | c :: rest, acc =>
    if c = sep then String.mk acc.reverse :: splitCharAux sep rest []
    else splitCharAux sep rest (c :: acc)

/-- Python's `str.split(sep)` for a one-character separator. -/
def pySplit (sep : Char) (s : String) : List String :=
  splitCharAux sep s.data []

/-- Python's `str.strip()`: drop leading and trailing whitespace. -/
def pyStrip (s : String) : String :=
  String.mk (((s.data.dropWhile Char.isWhitespace).reverse.dropWhile Char.isWhitespace).reverse)

end Py

namespace SqlBatch

open Py

/--
Embeds the statement loop of `execute_sql_file_and_fetch_results`
(`analysis.py`), abstracted over the database: `σ` is the state visible
through the connection, `ε` the type of statement-execution errors
(psycopg2 exceptions), `ρ` the type of one captured result set.
`execStmt st q` models `cur.execute(q)` followed by the
`if cur.description` check: it yields the post-state together with either
an error or `some result` (statement produced a result set) / `none`
(statement produced no result set).

`runStatements` executes an already-parsed list of statements strictly in
order.  On the first error the loop aborts: the error is returned, the
states reached by earlier statements are kept (no rollback), and the
accumulated result sets are lost, exactly as a raised exception loses the
local `query_results` list in the Python code.
-/
def runStatements (execStmt : σ → String → σ × Except ε (Option ρ)) :
    σ → List String → σ × Except ε (List ρ)
  | st, [] => (st, Except.ok [])
  | st, q :: rest =>
    match execStmt st q with
    | (st', Except.error e) => (st', Except.error e)
    | (st', Except.ok none) => runStatements execStmt st' rest
    | (st', Except.ok (some r)) =>
      match runStatements execStmt st' rest with
      | (st'', Except.error e) => (st'', Except.error e)
      | (st'', Except.ok rs) => (st'', Except.ok (r :: rs))

/--
Embeds the fragment loop of `execute_sql_file_and_fetch_results`
(`analysis.py` lines 253–262): iterate over the fragments produced by
splitting the script on `;`, strip each fragment, skip empty ones, execute
the rest in order.
-/
def runFragments (execStmt : σ → String → σ × Except ε (Option ρ)) :
    σ → List String → σ × Except ε (List ρ)
  | st, [] => (st, Except.ok [])
  | st, frag :: rest =>
    if pyStrip frag = "" then runFragments execStmt st rest
    else
      match execStmt st (pyStrip frag) with
      | (st', Except.error e) => (st', Except.error e)
      | (st', Except.ok none) => runFragments execStmt st' rest
      | (st', Except.ok (some r)) =>
        match runFragments execStmt st' rest with
        | (st'', Except.error e) => (st'', Except.error e)
        | (st'', Except.ok rs) => (st'', Except.ok (r :: rs))

/--
The Statement Batch obtained from a script: split on `;`, trim each
fragment, drop the empty ones (`queries = sql_script.split(';')` plus the
`query.strip()` / `if query:` steps of the Python loop).
-/
def parseStatements (script : String) : List String :=
  ((pySplit ';' script).map pyStrip).filter (fun q => q ≠ "")

/--
Embeds `execute_sql_file_and_fetch_results` (`analysis.py`): read the
script (file I/O elided — the script text is the argument), split it on
`;` and run the fragment loop on a single cursor.
-/
def execute_sql_file_and_fetch_results (execStmt : σ → String → σ × Except ε (Option ρ))
    (st : σ) (script : String) : σ × Except ε (List ρ) :=
  runFragments execStmt st (pySplit ';' script)

theorem runFragments_eq_runStatements (execStmt : σ → String → σ × Except ε (Option ρ))
    (st : σ) (frags : List String) :
    runFragments execStmt st frags =
      runStatements execStmt st ((frags.map pyStrip).filter (fun q => q ≠ "")) := by
  induction frags generalizing st with
  | nil => rfl
  | cons frag rest ih =>
    by_cases h : pyStrip frag = ""
    · rw [runFragments, if_pos h]
      simp only [List.map_cons, List.filter_cons, h]
      simpa using ih st
    · rw [runFragments, if_neg h]
      simp only [List.map_cons, List.filter_cons]
      have hd : decide (pyStrip frag ≠ "") = true := by simpa using h
      rw [hd, if_pos rfl, runStatements]
      cases hex : execStmt st (pyStrip frag) with
      | mk st' out =>
        cases out with
        | error e => rfl
        | ok r =>
          cases r with
          | none => exact ih st'
          | some v =>
            dsimp only
            rw [ih st']

theorem runStatements_append (execStmt : σ → String → σ × Except ε (Option ρ))
    (st st' : σ) (pre rest : List String) (rs : List ρ)
    (hpre : runStatements execStmt st pre = (st', Except.ok rs)) :
    runStatements execStmt st (pre ++ rest) =
      match runStatements execStmt st' rest with
      | (st'', Except.error e) => (st'', Except.error e)
      | (st'', Except.ok rs₂) => (st'', Except.ok (rs ++ rs₂)) := by
  induction pre generalizing st rs with
  | nil =>
    simp only [runStatements] at hpre
    cases hpre
    simp only [List.nil_append]
    cases h : runStatements execStmt st' rest with
    | mk st'' out => cases out <;> simp
  | cons q pre ih =>
    simp only [runStatements] at hpre ⊢
    cases hex : execStmt st q with
    | mk st₁ out =>
      rw [hex] at hpre
      cases out with
      | error e => simp at hpre
      | ok r =>
        cases r with
        | none =>
          simp only at hpre
          exact ih st₁ rs hpre
        | some v =>
          simp only at hpre
          cases hrec : runStatements execStmt st₁ pre with
          | mk st₂ out₂ =>
            rw [hrec] at hpre
            cases out₂ with
            | error e => simp at hpre
            | ok rs₁ =>
              simp only [Prod.mk.injEq, Except.ok.injEq] at hpre
              obtain ⟨h1, h2⟩ := hpre
              subst h1
              simp only [List.cons_append]
              rw [show (pre.append rest) = pre ++ rest from rfl, ih st₁ rs₁ hrec]
              subst h2
              cases hr2 : runStatements execStmt st₂ rest with
              | mk st₃ out₃ => cases out₃ <;> simp

end SqlBatch

namespace Analysis

/-- A stored row; the loader moves rows as opaque delimited-text tuples. -/
abbrev Row := List String

/--
The PostgreSQL state visible to `analysis.py`: the set of schemas that
exist and, for each existing table keyed by `(schema, table)`, its rows.
-/
structure Store where
  schemas : List String
  tables : List ((String × String) × List Row)
deriving DecidableEq, Repr

/-- Database-side errors (psycopg2 server errors). -/
inductive DbError where
  | undefinedSchema (schemaName : String)
  | undefinedTable (schemaName tableName : String)
deriving DecidableEq, Repr

/--
Python-level exceptions that can escape the functions of `analysis.py`:
`nameError` models `NameError` on an unbound local variable;
`programmingError` models psycopg2's `ProgrammingError` raised by
`cur.fetchone()` when no result set is available; `databaseError` models a
psycopg2 database error raised outside any `try` block.
-/
inductive PyError where
  | nameError (varName : String)
  | programmingError (msg : String)
  | databaseError (e : DbError)
deriving DecidableEq, Repr

/-- The SQL statements `analysis.py` passes to `execute_query`. -/
inductive Query where
  | createSchema (schemaName : String)
  | createTable (schemaName tableName : String)
  | selectOneFrom (schemaName tableName : String)
deriving DecidableEq, Repr

/-- Association lookup of a table by `(schema, table)` key. -/
def lookupTable : List ((String × String) × List Row) → String × String → Option (List Row)
  | [], _ => none
  | (k, v) :: rest, key => if k = key then some v else lookupTable rest key

/-- The rows of table `(sch, tbl)`, or `none` if the table does not exist. -/
def Store.getTable (st : Store) (sch tbl : String) : Option (List Row) :=
  lookupTable st.tables (sch, tbl)

/-- Replace the rows of table `(sch, tbl)` (no-op if the table is absent). -/
def Store.setTable (st : Store) (sch tbl : String) (rows : List Row) : Store :=
  { st with
    tables := st.tables.map (fun p => if p.1 = (sch, tbl) then ((sch, tbl), rows) else p) }

/--
Server-side execution of one `Query` (the semantics behind
`cur.execute(query)`), returning the committed store plus the statement's
result set: `CREATE SCHEMA IF NOT EXISTS` / `CREATE TABLE IF NOT EXISTS`
succeed whether or not the object exists and produce no result set;
`CREATE TABLE` in a missing schema is a server error; `SELECT 1 FROM t`
produces one row `["1"]` per row of `t` and is a server error if `t` is
missing.
-/
def execStore : Store → Query → Except DbError (Store × Option (List Row))
  | st, Query.createSchema n =>
    if n ∈ st.schemas then Except.ok (st, none)
    else Except.ok ({ st with schemas := st.schemas ++ [n] }, none)
  | st, Query.createTable sch tbl =>
    if sch ∈ st.schemas then
      match st.getTable sch tbl with
      | some _ => Except.ok (st, none)
      | none => Except.ok ({ st with tables := st.tables ++ [((sch, tbl), [])] }, none)
    else Except.error (DbError.undefinedSchema sch)
  | st, Query.selectOneFrom sch tbl =>
    match st.getTable sch tbl with
    | some rows => Except.ok (st, some (rows.map (fun _ => ["1"])))
    | none => Except.error (DbError.undefinedTable sch tbl)

/--
Embeds `connect` (`analysis.py` lines 113–140): `attempt` is the outcome
of `psycopg2.connect(**config)`.  On success the connection (`some ()`) is
returned; on failure the exception is caught, a message is printed, and
`None` is returned — the error is not re-raised.
-/
def connect (attempt : Except String Unit) : Option Unit :=
  match attempt with
  | Except.ok _ => some ()
  | Except.error _ => none

/--
Embeds `execute_query` (`analysis.py` lines 143–170).  The `try` block:
if `conn` is not `None`, a cursor is bound and the query executed and
committed; a psycopg2 error there is caught and printed (the store is left
unchanged, `conn.commit()` is never reached); if `conn` is `None` a
message is printed and no cursor is ever bound.  After the `try`, when
`fetch_result` is true the code runs `cur.fetchone()` unconditionally:
with no cursor bound this raises `NameError` (the fetch on line 170 is
outside the branch that bound `cur`); with a cursor but no result set
available (failed execution, or a statement with no result set) it raises
psycopg2 `ProgrammingError`; otherwise it returns the first row (or
`None` for an empty result set).  When `fetch_result` is false the
function returns `None`.
-/
def execute_query (st : Store) (conn : Option Unit) (query : Query)
    (fetch_result : Bool) : Except PyError (Store × Option Row) :=
  let tryOutcome : Store × Option (Option (List Row)) :=
    match conn with
    | some _ =>
      match execStore st query with
      | Except.ok (st', res) => (st', some res)
      | Except.error _ => (st, some none)
    | none => (st, none)
  if fetch_result then
    match tryOutcome with
    | (_, none) => Except.error (PyError.nameError "cur")
    | (_, some none) => Except.error (PyError.programmingError "no results to fetch")
    | (st', some (some rows)) => Except.ok (st', rows.head?)
  else Except.ok (tryOutcome.1, none)

/--
Embeds `create_schema_if_not_exists` (`analysis.py`): runs the
`CREATE SCHEMA IF NOT EXISTS` statement through `execute_query` (no fetch)
and then prints a success message unconditionally.
-/
def create_schema_if_not_exists (st : Store) (conn : Option Unit) (schemaName : String) :
    Except PyError Store :=
  match execute_query st conn (Query.createSchema schemaName) false with
  | Except.ok (st', _) => Except.ok st'
  | Except.error e => Except.error e

/--
Embeds `create_table_if_not_exists` (`analysis.py` lines 179–193): runs
the fixed `CREATE TABLE IF NOT EXISTS` DDL through `execute_query` (no
fetch) and prints a success message unconditionally.  The declared column
list is transcribed separately as `create_table_columns`.
-/
def create_table_if_not_exists (st : Store) (conn : Option Unit) (sch tbl : String) :
    Except PyError Store :=
  match execute_query st conn (Query.createTable sch tbl) false with
  | Except.ok (st', _) => Except.ok st'
  | Except.error e => Except.error e

/--
Embeds `copy_data_from_csv_to_table` (`analysis.py` lines 196–227).
Step 1: probe `SELECT 1 FROM sch.tbl` through `execute_query` with
`fetch_result=True`; an exception there propagates.  Step 2: if the probe
returned `None`, open the CSV and `COPY` the dataset into the table
(append its rows) and commit, reporting a transfer (`true`); the `COPY`
runs outside any `try`, so a server error there (table missing) would
propagate as a database error.  If the probe returned a row, print that
the table already has data and perform no transfer (`false`).
-/
def copy_data_from_csv_to_table (st : Store) (conn : Option Unit) (sch tbl : String)
    (dataset : List Row) : Except PyError (Store × Bool) :=
  match execute_query st conn (Query.selectOneFrom sch tbl) true with
  | Except.error e => Except.error e
  | Except.ok (st', testResult) =>
    match testResult with
    | some _ => Except.ok (st', false)
    | none =>
      match st'.getTable sch tbl with
      | some rows => Except.ok (st'.setTable sch tbl (rows ++ dataset), true)
      | none => Except.error (PyError.databaseError (DbError.undefinedTable sch tbl))

/-- SQL column types appearing in (or relevant to) the repository's DDL. -/
inductive SqlType where
  | varchar
  | text
  | integer
  | timestamp
  | float
  | decimal
deriving DecidableEq, Repr

/--
The column list transcribed from the `CREATE TABLE IF NOT EXISTS` DDL
string in `create_table_if_not_exists` (`analysis.py` lines 179–193).
-/
def create_table_columns : List (String × SqlType) :=
  [("InvoiceNo", SqlType.varchar),
   ("StockCode", SqlType.varchar),
   ("Description", SqlType.text),
   ("Quantity", SqlType.integer),
   ("InvoiceDate", SqlType.timestamp),
   ("UnitPrice", SqlType.float),
   ("CustomerID", SqlType.varchar),
   ("Country", SqlType.varchar)]

/-- Rendering of a `SqlType` as it appears in the DDL text. -/
def SqlType.sqlName : SqlType → String
  | SqlType.varchar => "VARCHAR"
  | SqlType.text => "TEXT"
  | SqlType.integer => "INTEGER"
  | SqlType.timestamp => "TIMESTAMP"
  | SqlType.float => "FLOAT"
  | SqlType.decimal => "DECIMAL"

/--
The `CREATE TABLE` statement of `create_table_if_not_exists` with the
Python f-string's newlines and indentation flattened to single spaces.
-/
def create_table_query (sch tbl : String) : String :=
  "CREATE TABLE IF NOT EXISTS " ++ sch ++ "." ++ tbl ++ " (" ++
    String.intercalate ", " (create_table_columns.map (fun c => c.1 ++ " " ++ c.2.sqlName)) ++
    ")"

end Analysis

namespace Retail

open Py

/--
An exactly-representable decimal number `mant / 10 ^ exp`.  It models the
values held by the floating-point (`float64` / Spark `double`) columns of
the dataset on the decimally-representable inputs the programs handle
(prices and customer ids such as `12345.0`), where the binary doubles
round-trip exactly through their decimal text, so the exact decimal
arithmetic below coincides with the programs' arithmetic.
-/
structure Decimal where
  mant : Int
  exp : Nat
deriving DecidableEq, Repr

/-- Exact addition: rescale both operands to the larger exponent. -/
def Decimal.addD (a b : Decimal) : Decimal :=
  let e := max a.exp b.exp
  ⟨a.mant * ((10 : Int) ^ (e - a.exp)) + b.mant * ((10 : Int) ^ (e - b.exp)), e⟩

/-- Exact multiplication by an integer (a quantity). -/
def Decimal.scaleInt (q : Int) (d : Decimal) : Decimal :=
  ⟨q * d.mant, d.exp⟩

/-- The exact zero. -/
def Decimal.zeroD : Decimal := ⟨0, 0⟩

/--
Truncation toward zero, the semantics of Python's `int()` /
pandas `astype(int)` on a float value.
-/
def Decimal.truncToInt (d : Decimal) : Int :=
  let q : Nat := d.mant.natAbs / 10 ^ d.exp
  if 0 ≤ d.mant then (q : Int) else -(q : Int)

/-- Left-pad a string with `'0'` up to length `n`. -/
def padZeros (s : String) (n : Nat) : String :=
  String.mk (List.replicate (n - s.length) '0') ++ s

/--
Rendering of a double-typed value as text, the semantics of Spark's
`CAST(double AS STRING)` (Java `Double.toString`) in the plain
(non-scientific) range: integer part, `'.'`, then the fractional digits
with trailing zeros stripped — an integral value renders with a trailing
`".0"` (e.g. `12345.0`), never as a bare integer.
-/
def Decimal.render (d : Decimal) : String :=
  let a := d.mant.natAbs
  let ip := a / 10 ^ d.exp
  let fp := a % 10 ^ d.exp
  let fracAll := padZeros (toString fp) d.exp
  let fracKept := String.mk (((fracAll.data.reverse).dropWhile (fun c => c = '0')).reverse)
  let frac := if fracKept = "" then "0" else fracKept
  (if d.mant < 0 then "-" else "") ++ toString ip ++ "." ++ frac

/-- A timezone-naive timestamp at minute precision, as the dataset has. -/
structure Timestamp where
  year : Nat
  month : Nat
  day : Nat
  hour : Nat
  minute : Nat
deriving DecidableEq, Repr

/-- `some n` iff `s` is `minLen`–`maxLen` decimal digits, with value `n`. -/
def parseNatField (s : String) (minLen maxLen : Nat) : Option Nat :=
  if minLen ≤ s.length ∧ s.length ≤ maxLen ∧ s.data.all Char.isDigit then
    some (s.data.foldl (fun n c => n * 10 + (c.toNat - 48)) 0)
  else none

/--
Parsing of an invoice timestamp under the fixed source format
`month/day/year hour:minute` (24-hour): pandas
`to_datetime(format = s!"%m/%d/%Y %H:%M")` in `read_retail_dataset` and
Spark `to_timestamp(col, s!"M/d/yyyy H:mm")` in `read_csv_file`.
Month/day/hour/minute take one or two digits, the year exactly four, and
the field values must be in range; anything else fails to parse.  (Both
real parsers also reject day numbers invalid for the specific month; this
model uses the uniform bound 31, which agrees with them on every input
the claims touch.)
-/
def parseTimestamp (s : String) : Option Timestamp :=
  match pySplit ' ' s with
  | [datePart, timePart] =>
    match pySplit '/' datePart, pySplit ':' timePart with
    | [ms, ds, ys], [hs, mins] =>
      match parseNatField ms 1 2, parseNatField ds 1 2, parseNatField ys 4 4,
          parseNatField hs 1 2, parseNatField mins 1 2 with
      | some m, some d, some y, some h, some mi =>
        if 1 ≤ m ∧ m ≤ 12 ∧ 1 ≤ d ∧ d ≤ 31 ∧ h ≤ 23 ∧ mi ≤ 59 then
          some ⟨y, m, d, h, mi⟩
        else none
      | _, _, _, _, _ => none
    | _, _ => none
  | _ => none

/--
Re-expression of a timestamp in the canonical form `YYYY-MM-DD HH:MM:SS`
(`dt.strftime` with format `%Y-%m-%d %H:%M:%S` in `read_retail_dataset`;
the seconds are always `00` since the source has minute precision).
-/
def Timestamp.canonical (t : Timestamp) : String :=
  padZeros (toString t.year) 4 ++ "-" ++ padZeros (toString t.month) 2 ++ "-" ++
    padZeros (toString t.day) 2 ++ " " ++ padZeros (toString t.hour) 2 ++ ":" ++
    padZeros (toString t.minute) 2 ++ ":00"

/--
A raw dataset row before normalization.  `customerId` is the value of the
floating-point `CustomerID` column (`none` for a missing value, NaN/null);
`unitPrice` is the value of the floating-point `UnitPrice` column;
`invoiceDate` is the raw timestamp text.
-/
structure RawRecord where
  invoiceNo : String
  stockCode : String
  description : String
  quantity : Int
  invoiceDate : String
  unitPrice : Decimal
  customerId : Option Decimal
  country : String
deriving DecidableEq, Repr

end Retail

namespace Analysis

open Retail

/--
The `CustomerID` normalization of `read_retail_dataset`
(`analysis.py` lines 55–57): `fillna(0)`, then `astype(int)` (truncating),
then `astype(str)`.
-/
def analysis_customer_id (v : Option Decimal) : String :=
  toString ((v.getD ⟨0, 0⟩).truncToInt)

/-- A row of the DataFrame produced by `read_retail_dataset`. -/
structure NormalizedRecord where
  invoiceNo : String
  stockCode : String
  description : String
  quantity : Int
  invoiceDate : String
  unitPrice : Decimal
  customerId : String
  country : String
deriving DecidableEq, Repr

/--
The per-row normalization of `read_retail_dataset` (`analysis.py`
lines 53–59): `InvoiceDate` is parsed with `pd.to_datetime(format =
s!"%m/%d/%Y %H:%M")` — which raises `ValueError` on any value that fails
to parse (modelled as `Except.error`) — and re-expressed via `strftime`;
`CustomerID` is filled/truncated/stringified.
-/
def normalize_record (r : RawRecord) : Except String NormalizedRecord :=
  match parseTimestamp r.invoiceDate with
  | some t =>
    Except.ok ⟨r.invoiceNo, r.stockCode, r.description, r.quantity, t.canonical,
      r.unitPrice, analysis_customer_id r.customerId, r.country⟩
  | none =>
    Except.error ("time data " ++ r.invoiceDate ++ " does not match format")

/--
The dataset-level normalization of `read_retail_dataset`: pandas applies
`to_datetime` to the whole column and aborts the run on the first value
that fails to parse, so no partially-normalized dataset is ever produced.
-/
def read_retail_dataset (rs : List RawRecord) : Except String (List NormalizedRecord) :=
  rs.mapM normalize_record

end Analysis

namespace Pipeline

open Retail

/--
The `CustomerID` normalization of `read_csv_file` (`pipeline.py`
lines 36 and 44) when the column was inferred as a floating-point column:
`fillna({CustomerID: 0})` fills a missing value with `0.0`, and
`cast(String)` then renders the double as text (no integer coercion), so
an integral id renders with a trailing `".0"`.
-/
def pipeline_customer_id (v : Option Decimal) : String :=
  Decimal.render (v.getD ⟨0, 0⟩)

/-- A row of the DataFrame produced by `read_csv_file` (`pipeline.py`). -/
structure PipelineRecord where
  invoiceNo : String
  stockCode : String
  description : String
  quantity : Int
  invoiceDate : Option Timestamp
  unitPrice : Decimal
  customerId : String
  country : String
deriving DecidableEq, Repr

/--
The per-row normalization of `read_csv_file` (`pipeline.py` lines 20–47):
`to_timestamp(InvoiceDate, s!"M/d/yyyy H:mm")` — which, in Spark's
default (non-ANSI) mode, yields null (`none`) for a value that fails to
parse instead of raising — plus the `CustomerID` fill-and-cast.  Every
row is kept.
-/
def read_csv_row (r : RawRecord) : PipelineRecord :=
  ⟨r.invoiceNo, r.stockCode, r.description, r.quantity, parseTimestamp r.invoiceDate,
    r.unitPrice, pipeline_customer_id r.customerId, r.country⟩

/-- The dataset-level normalization of `read_csv_file` (`pipeline.py`). -/
def read_csv_file (rs : List RawRecord) : List PipelineRecord :=
  rs.map read_csv_row

/-- The sales amount `Quantity * UnitPrice` of one line item, exactly. -/
def lineAmount (r : PipelineRecord) : Decimal :=
  Decimal.scaleInt r.quantity r.unitPrice

/-- The exact sum of the line amounts of a list of records. -/
def amountSum (ds : List Decimal) : Decimal :=
  ds.foldr Decimal.addD Decimal.zeroD

/--
Spark's `CAST(x AS DECIMAL(26,2))`: round the value to 2 fractional
digits (HALF_UP: ties away from zero) and represent it with at most 26
total digits; a value that does not fit yields null (`none`) in Spark's
default non-ANSI mode.  The resulting `DECIMAL(26,2)` value `v` is
represented canonically by the integer `100 * v` (its number of cents):
`some 1400` is the decimal value `14.00`.
-/
def castDecimal26_2 (d : Decimal) : Option Int :=
  let a : Nat := d.mant.natAbs
  let centsAbs : Nat :=
    if d.exp ≤ 2 then a * 10 ^ (2 - d.exp)
    else a / 10 ^ (d.exp - 2) + (if 10 ^ (d.exp - 2) ≤ a % 10 ^ (d.exp - 2) * 2 then 1 else 0)
  let cents : Int := if d.mant < 0 then -(centsAbs : Int) else (centsAbs : Int)
  if centsAbs < 10 ^ 26 then some cents else none

/--
Embeds `calculate_total_sales` (`pipeline.py` lines 50–65):
`groupBy().agg(sum(Quantity * UnitPrice).cast(decimal(26,2)))` — a single
global aggregation folding the per-line amounts, then the decimal cast.
-/
def calculate_total_sales (rs : List PipelineRecord) : Option Int :=
  castDecimal26_2 (rs.foldl (fun acc r => acc.addD (lineAmount r)) Decimal.zeroD)

/-- The distinct stock codes of a dataset, in the model's grouping order. -/
def stockCodes (rs : List PipelineRecord) : List String :=
  (rs.map PipelineRecord.stockCode).dedup

/--
The grouped totals behind `calculate_top_10_products`: for each distinct
`StockCode`, `sum(Quantity * UnitPrice)` over its group, cast to
`decimal(26,2)`.  (Spark's grouping order is unspecified; the model uses
the order `List.dedup` yields, which is irrelevant after the sort.)
-/
def groupTotals (rs : List PipelineRecord) : List (String × Option Int) :=
  (stockCodes rs).map (fun c =>
    (c, castDecimal26_2 (amountSum ((rs.filter (fun r => r.stockCode = c)).map lineAmount))))

/--
The descending order used by `orderBy(col(total_sales).desc())` on a
nullable decimal column: larger totals first, nulls last (Spark's default
for a descending sort).
-/
def descByTotal (a b : String × Option Int) : Prop :=
  match a.2, b.2 with
  | _, none => True
  | none, some _ => False
  | some x, some y => y ≤ x

instance : DecidableRel descByTotal := fun a b => by
  unfold descByTotal
  cases a.2 <;> cases b.2 <;> infer_instance

/--
Embeds `calculate_top_10_products` (`pipeline.py` lines 93–116):
group by `StockCode`, aggregate `sum(Quantity * UnitPrice)` cast to
`decimal(26,2)`, order descending by the total, and keep the first 10.
(`orderBy` is a sort; the model uses a stable insertion sort, which
fixes the tie order Spark leaves unspecified.)
-/
def calculate_top_10_products (rs : List PipelineRecord) : List (String × Option Int) :=
  ((groupTotals rs).insertionSort descByTotal).take 10

/-- The day-granularity key `to_date(InvoiceDate)`; a null timestamp has a
null date, which Spark groups under its own null key. -/
def invoiceDateKey (r : PipelineRecord) : Option (Nat × Nat × Nat) :=
  r.invoiceDate.map (fun t => (t.year, t.month, t.day))

/--
Embeds `calculate_transaction_per_day` (`pipeline.py` lines 68–90):
group by `to_date(InvoiceDate)` and aggregate `countDistinct(InvoiceNo)`
— the number of distinct invoice numbers per calendar day, not the row
count.  (The `orderBy(...).show()` call only displays the frame; the
grouped frame itself is returned.)
-/
def calculate_transaction_per_day (rs : List PipelineRecord) :
    List (Option (Nat × Nat × Nat) × Nat) :=
  ((rs.map invoiceDateKey).dedup).map (fun d =>
    (d, ((rs.filter (fun r => invoiceDateKey r = d)).map PipelineRecord.invoiceNo).dedup.length))

end Pipeline

namespace Retail

theorem addD_comm (a b : Decimal) : a.addD b = b.addD a := by
  simp only [Decimal.addD]
  rw [Nat.max_comm b.exp a.exp, add_comm]

theorem addD_zeroD (a : Decimal) : a.addD Decimal.zeroD = a := by
  cases a with
  | mk m e =>
    unfold Decimal.addD Decimal.zeroD
    simp

theorem zeroD_addD (a : Decimal) : Decimal.zeroD.addD a = a := by
  rw [addD_comm]
  exact addD_zeroD a

theorem pow_sub_mul_pow_sub (x e E : Nat) (h1 : x ≤ e) (h2 : e ≤ E) :
    (10 : Int) ^ (e - x) * 10 ^ (E - e) = 10 ^ (E - x) := by
  rw [← pow_add]
  congr 1
  omega

theorem addD_assoc (a b c : Decimal) : (a.addD b).addD c = a.addD (b.addD c) := by
  unfold Decimal.addD
  simp only [Decimal.mk.injEq]
  constructor
  · simp only [add_mul, mul_assoc]
    rw [pow_sub_mul_pow_sub a.exp (max a.exp b.exp) (max (max a.exp b.exp) c.exp)
        (Nat.le_max_left _ _) (Nat.le_max_left _ _),
      pow_sub_mul_pow_sub b.exp (max a.exp b.exp) (max (max a.exp b.exp) c.exp)
        (Nat.le_max_right _ _) (Nat.le_max_left _ _),
      pow_sub_mul_pow_sub b.exp (max b.exp c.exp) (max a.exp (max b.exp c.exp))
        (Nat.le_max_left _ _) (Nat.le_max_right _ _),
      pow_sub_mul_pow_sub c.exp (max b.exp c.exp) (max a.exp (max b.exp c.exp))
        (Nat.le_max_right _ _) (Nat.le_max_right _ _)]
    rw [Nat.max_assoc]
    ring
  · exact Nat.max_assoc _ _ _

instance : Std.Associative Decimal.addD := ⟨addD_assoc⟩

instance : Std.Commutative Decimal.addD := ⟨addD_comm⟩

theorem toDigits_ne_nil (n : Nat) : Nat.toDigits 10 n ≠ [] := by
  unfold Nat.toDigits Nat.toDigitsCore
  by_cases h : n / 10 = 0
  · simp [h]
  · simp only [h, if_false]
    intro hc
    have hlen := Nat.toDigitsCore_lens_eq 10 n (n / 10) (Nat.digitChar (n % 10)) []
    rw [hc] at hlen
    simp at hlen

theorem nat_repr_length_pos (n : Nat) : 0 < (Nat.repr n).length := by
  have h := toDigits_ne_nil n
  unfold Nat.repr
  cases hd : Nat.toDigits 10 n with
  | nil => exact absurd hd h
  | cons c cs => simp [List.asString, String.length]

theorem int_toString_length_pos (i : Int) : 0 < (toString i).length := by
  show 0 < (Int.repr i).length
  cases i with
  | ofNat m => exact nat_repr_length_pos m
  | negSucc m =>
    unfold Int.repr
    rw [String.length_append]
    have h1 := nat_repr_length_pos (m + 1)
    have h2 : "-".length = 1 := rfl
    omega

end Retail

namespace Analysis

theorem lookupTable_set (l : List ((String × String) × List Row)) (k : String × String)
    (v rows : List Row) (h : lookupTable l k = some v) :
    lookupTable (l.map (fun p => if p.1 = k then (k, rows) else p)) k = some rows := by
  induction l with
  | nil => simp [lookupTable] at h
  | cons p rest ih =>
    obtain ⟨pk, pv⟩ := p
    by_cases hp : pk = k
    · subst hp
      rw [List.map_cons, if_pos (show ((pk, pv) : (String × String) × List Row).1 = pk from rfl)]
      simp [lookupTable]
    · rw [List.map_cons, if_neg (show ¬((pk, pv) : (String × String) × List Row).1 = k from hp)]
      simp only [lookupTable] at h ⊢
      rw [if_neg hp] at h ⊢
      exact ih h

theorem getTable_setTable (st : Store) (sch tbl : String) (v rows : List Row)
    (h : st.getTable sch tbl = some v) :
    (st.setTable sch tbl rows).getTable sch tbl = some rows := by
  unfold Store.getTable Store.setTable at *
  exact lookupTable_set st.tables (sch, tbl) v rows h

end Analysis

namespace Pipeline

instance : IsTotal (String × Option Int) descByTotal := by
  constructor
  intro a b
  unfold descByTotal
  cases ha : a.2 <;> cases hb : b.2
  · exact Or.inl trivial
  · exact Or.inr trivial
  · exact Or.inl trivial
  · exact Int.le_total _ _

instance : IsTrans (String × Option Int) descByTotal := by
  constructor
  intro a b c hab hbc
  unfold descByTotal at hab hbc ⊢
  cases ha : a.2 <;> cases hb : b.2 <;> cases hc : c.2 <;> simp_all
  omega

theorem calculate_total_sales_eq_sum (rs : List PipelineRecord) :
    calculate_total_sales rs = castDecimal26_2 (amountSum (rs.map lineAmount)) := by
  unfold calculate_total_sales amountSum
  congr 1
  rw [show (rs.foldl (fun acc r => acc.addD (lineAmount r)) Retail.Decimal.zeroD) =
      (rs.map lineAmount).foldl Retail.Decimal.addD Retail.Decimal.zeroD from
    (List.foldl_map lineAmount Retail.Decimal.addD rs Retail.Decimal.zeroD).symm]
  exact List.foldl_eq_foldr Retail.Decimal.zeroD (rs.map lineAmount)

theorem calculate_top_10_is_sorted_take (rs : List PipelineRecord) :
    ∃ l : List (String × Option Int), l.Perm (groupTotals rs) ∧
      l.Sorted descByTotal ∧ calculate_top_10_products rs = l.take 10 := by
  refine ⟨(groupTotals rs).insertionSort descByTotal, ?_, ?_, rfl⟩
  · exact List.perm_insertionSort descByTotal (groupTotals rs)
  · exact List.sorted_insertionSort descByTotal (groupTotals rs)

end Pipeline

/-! Concrete inputs used by the claim theorems and their witnesses. -/

/-- A store whose `retail.online_retail` table exists and is empty. -/
def storeEmptyTable : Analysis.Store :=
  ⟨["retail"], [(("retail", "online_retail"), [])]⟩

/-- A store whose `retail.online_retail` table already holds one row. -/
def storeLoadedTable : Analysis.Store :=
  ⟨["retail"], [(("retail", "online_retail"), [["536365", "85123A"]])]⟩

/-- A store with no schemas and no tables. -/
def emptyStore : Analysis.Store := ⟨[], []⟩

/--
A concrete statement semantics for exercising the batch runner: the state
is the log of executed statements; the statement `"BOOM"` fails with an
error naming it, every other statement succeeds and echoes itself as its
result set.
-/
def logExec : List String → String → List String × Except String (Option String) :=
  fun st q =>
    if q = "BOOM" then (st, Except.error ("statement failed: " ++ q))
    else (st ++ [q], Except.ok (some q))

/-- A raw record whose timestamp is well-formed. -/
def rawGoodRecord : Retail.RawRecord :=
  ⟨"536365", "85123A", "WHITE HANGING HEART", 6, "12/1/2010 8:26", ⟨255, 2⟩,
    some ⟨178500, 1⟩, "United Kingdom"⟩

/-- A raw record whose timestamp does not match `month/day/year hour:minute`. -/
def rawBadTimestamp : Retail.RawRecord :=
  ⟨"536365", "85123A", "WHITE HANGING HEART", 6, "not a timestamp", ⟨255, 2⟩,
    some ⟨178500, 1⟩, "United Kingdom"⟩

/-- The customer id `12345.0` as held by a floating-point column. -/
def dec12345 : Retail.Decimal := ⟨123450, 1⟩

/-- The records of the aggregate-correctness example:
`(stock_code "A", qty 2, price 3.00), ("A", 1, 3.00), ("B", 5, 1.00)`. -/
def exampleRecords : List Pipeline.PipelineRecord :=
  [⟨"536365", "A", "item a", 2, some ⟨2010, 12, 1, 8, 26⟩, ⟨300, 2⟩, "12345", "United Kingdom"⟩,
   ⟨"536366", "A", "item a", 1, some ⟨2010, 12, 1, 9, 1⟩, ⟨300, 2⟩, "12346", "United Kingdom"⟩,
   ⟨"536367", "B", "item b", 5, some ⟨2010, 12, 2, 10, 3⟩, ⟨100, 2⟩, "12347", "United Kingdom"⟩]

/-- First line item of invoice `536365`, dated 2010-12-01 08:26. -/
def invoiceLine1 : Pipeline.PipelineRecord :=
  ⟨"536365", "85123A", "item a", 6, some ⟨2010, 12, 1, 8, 26⟩, ⟨255, 2⟩, "17850", "United Kingdom"⟩

/-- Second line item of the same invoice `536365` on the same date
(different hour and product). -/
def invoiceLine2 : Pipeline.PipelineRecord :=
  ⟨"536365", "71053", "item b", 8, some ⟨2010, 12, 1, 8, 28⟩, ⟨339, 2⟩, "17850", "United Kingdom"⟩

/-! The claims. -/

/--
C8 (confirmed): for every script text, the batch runner executes exactly
the statements obtained by splitting the script on `;`, trimming each
fragment, and dropping empty fragments, in order; the script
`"SELECT 1; ; SELECT 2;"` parses into exactly 2 executable statements.
-/
theorem batch_parsing_semantics :
    (∀ (σ ε ρ : Type) (execStmt : σ → String → σ × Except ε (Option ρ)) (st : σ)
      (script : String),
      SqlBatch.execute_sql_file_and_fetch_results execStmt st script =
        SqlBatch.runStatements execStmt st (SqlBatch.parseStatements script)) ∧
    SqlBatch.parseStatements "SELECT 1; ; SELECT 2;" = ["SELECT 1", "SELECT 2"] ∧
    (SqlBatch.parseStatements "SELECT 1; ; SELECT 2;").length = 2 := by
  refine ⟨?_, by decide, by decide⟩
  intro σ ε ρ execStmt st script
  exact SqlBatch.runFragments_eq_runStatements execStmt st _

/--
C2 (confirmed): if the parsed statement sequence of a script is
`pre ++ s :: post` where every statement of `pre` succeeds (reaching state
`st'` with captured results `rs`) and `s` fails with error `e`, then the
batch runner returns exactly `e` — the error produced by the failing
statement, identifying it — in the state `s` left behind (`st''`): the
prefix statements were executed and their effects are not rolled back,
and the result does not depend on `post`, so no statement after the
failing one is ever executed.
-/
theorem batch_fail_fast {σ ε ρ : Type} (execStmt : σ → String → σ × Except ε (Option ρ))
    (st st' st'' : σ) (script : String) (pre post : List String) (s : String)
    (rs : List ρ) (e : ε)
    (hparse : SqlBatch.parseStatements script = pre ++ s :: post)
    (hpre : SqlBatch.runStatements execStmt st pre = (st', Except.ok rs))
    (hfail : execStmt st' s = (st'', Except.error e)) :
    SqlBatch.execute_sql_file_and_fetch_results execStmt st script = (st'', Except.error e) := by
  have h1 : SqlBatch.execute_sql_file_and_fetch_results execStmt st script =
      SqlBatch.runStatements execStmt st (SqlBatch.parseStatements script) :=
    SqlBatch.runFragments_eq_runStatements execStmt st _
  rw [h1, hparse, SqlBatch.runStatements_append execStmt st st' pre (s :: post) rs hpre,
    SqlBatch.runStatements, hfail]

/--
Witness for C2: on the script `"SELECT 1; BOOM; SELECT 2"` under
`logExec`, the runner executes `SELECT 1`, fails on `BOOM` with the error
naming it, keeps `SELECT 1` in the executed log (no rollback), and never
executes `SELECT 2`.
-/
theorem batch_fail_fast_witness :
    SqlBatch.execute_sql_file_and_fetch_results logExec [] "SELECT 1; BOOM; SELECT 2" =
      (["SELECT 1"], Except.error "statement failed: BOOM") :=
  batch_fail_fast logExec [] ["SELECT 1"] ["SELECT 1"] "SELECT 1; BOOM; SELECT 2"
    ["SELECT 1"] ["SELECT 2"] "BOOM" ["SELECT 1"] "statement failed: BOOM"
    (by decide) rfl rfl

/--
C10 (confirmed): when `connect` has failed (`conn` is `None`), any
`execute_query` call with `fetch_result=True` — in particular the bulk
loader's idempotency probe in `copy_data_from_csv_to_table` — raises
`NameError` on the unbound local `cur`, because the fetch on line 170
runs outside the branch that bound the cursor; it neither returns a
result nor a connection-specific error.
-/
theorem fetch_after_failed_connection_nameerror :
    (∀ (st : Analysis.Store) (q : Analysis.Query),
      Analysis.execute_query st none q true = Except.error (Analysis.PyError.nameError "cur")) ∧
    (∀ (st : Analysis.Store) (sch tbl : String) (ds : List Analysis.Row),
      Analysis.copy_data_from_csv_to_table st none sch tbl ds =
        Except.error (Analysis.PyError.nameError "cur")) :=
  ⟨fun _ _ => rfl, fun _ _ _ _ => rfl⟩

/--
Counterexample for C9: the table created by `create_table_if_not_exists`
declares `UnitPrice` with the floating-point type `FLOAT`, not a decimal
type as the claim states.
-/
theorem unitprice_float_counterexample :
    Analysis.create_table_columns.lookup "UnitPrice" = some Analysis.SqlType.float ∧
    Analysis.SqlType.float ≠ Analysis.SqlType.decimal :=
  ⟨rfl, by decide⟩

/--
C9 (corrected): the created table declares the fixed 8-column schema —
string (VARCHAR) types for InvoiceNo, StockCode, CustomerID and Country,
TEXT for Description, INTEGER for Quantity, TIMESTAMP for InvoiceDate —
but a floating-point type (FLOAT), not a decimal type, for UnitPrice.
-/
theorem table_schema_amended :
    Analysis.create_table_columns.length = 8 ∧
    Analysis.create_table_columns.lookup "InvoiceNo" = some Analysis.SqlType.varchar ∧
    Analysis.create_table_columns.lookup "StockCode" = some Analysis.SqlType.varchar ∧
    Analysis.create_table_columns.lookup "Description" = some Analysis.SqlType.text ∧
    Analysis.create_table_columns.lookup "Quantity" = some Analysis.SqlType.integer ∧
    Analysis.create_table_columns.lookup "InvoiceDate" = some Analysis.SqlType.timestamp ∧
    Analysis.create_table_columns.lookup "UnitPrice" = some Analysis.SqlType.float ∧
    Analysis.create_table_columns.lookup "CustomerID" = some Analysis.SqlType.varchar ∧
    Analysis.create_table_columns.lookup "Country" = some Analysis.SqlType.varchar ∧
    Analysis.create_table_query "retail" "online_retail" =
      "CREATE TABLE IF NOT EXISTS retail.online_retail (InvoiceNo VARCHAR, StockCode VARCHAR, Description TEXT, Quantity INTEGER, InvoiceDate TIMESTAMP, UnitPrice FLOAT, CustomerID VARCHAR, Country VARCHAR)" :=
  ⟨rfl, rfl, rfl, rfl, rfl, rfl, rfl, rfl, rfl, rfl⟩

/--
Counterexample for C5: on the Spark pipeline path (`read_csv_file`), a
customer id held as the floating-point value `12345.0` normalizes to the
string `"12345.0"`, not `"12345"` — the value is cast to string directly,
with no integer coercion first.
-/
theorem customer_id_trailing_decimal_counterexample :
    Pipeline.pipeline_customer_id (some dec12345) = "12345.0" ∧
    ("12345.0" : String) ≠ "12345" :=
  ⟨rfl, by decide⟩

theorem pipeline_customer_id_length_pos (v : Option Retail.Decimal) :
    0 < (Pipeline.pipeline_customer_id v).length := by
  show 0 < (Retail.Decimal.render (v.getD ⟨0, 0⟩)).length
  unfold Retail.Decimal.render
  simp only [String.length_append]
  have h : (".").length = 1 := rfl
  omega

/--
C5 (corrected): the `analysis.py` normalizer behaves as the claim states
(missing customer id becomes `"0"`, and the value is coerced through an
integer representation first, so `12345.0` yields `"12345"`); the Spark
pipeline normalizer, however, fills a missing value with `0` and casts
the column value directly to string, so on a floating-point customer-id
column `12345.0` yields `"12345.0"` and a missing value yields `"0.0"`.
On both paths the normalized customer id is never empty.
-/
theorem customer_id_normalization_amended :
    Analysis.analysis_customer_id none = "0" ∧
    (∀ d : Retail.Decimal, Analysis.analysis_customer_id (some d) = toString d.truncToInt) ∧
    Analysis.analysis_customer_id (some dec12345) = "12345" ∧
    Pipeline.pipeline_customer_id none = "0.0" ∧
    Pipeline.pipeline_customer_id (some dec12345) = "12345.0" ∧
    (∀ v : Option Retail.Decimal,
      Analysis.analysis_customer_id v ≠ "" ∧ Pipeline.pipeline_customer_id v ≠ "") := by
  refine ⟨rfl, fun d => rfl, rfl, rfl, rfl, fun v => ⟨?_, ?_⟩⟩
  · have hpos := Retail.int_toString_length_pos ((v.getD ⟨0, 0⟩).truncToInt)
    intro hc
    have h0 : (Analysis.analysis_customer_id v).length = 0 := by rw [hc]; rfl
    exact absurd h0 (by
      show ¬(toString ((v.getD ⟨0, 0⟩).truncToInt)).length = 0
      omega)
  · have hpos := pipeline_customer_id_length_pos v
    intro hc
    have h0 : (Pipeline.pipeline_customer_id v).length = 0 := by rw [hc]; rfl
    omega

/--
C6 (confirmed): for every canonical dataset, `calculate_total_sales` is
the sum of `Quantity * UnitPrice` over all records cast to
`DECIMAL(26,2)` (a `DECIMAL(26,2)` value is represented by its number of
cents, so `some 1400` is `14.00`), and `calculate_top_10_products` takes
the first 10 entries of the grouped per-stock-code totals sorted in
descending order; on the example records
`[("A", 2, 3.00), ("A", 1, 3.00), ("B", 5, 1.00)]` the total is `14.00`
and the products come out as `[("A", 9.00), ("B", 5.00)]`, in that order.
-/
theorem aggregate_correctness :
    (∀ rs, Pipeline.calculate_total_sales rs =
      Pipeline.castDecimal26_2 (Pipeline.amountSum (rs.map Pipeline.lineAmount))) ∧
    (∀ rs, ∃ l : List (String × Option Int), l.Perm (Pipeline.groupTotals rs) ∧
      l.Sorted Pipeline.descByTotal ∧ Pipeline.calculate_top_10_products rs = l.take 10) ∧
    Pipeline.calculate_total_sales exampleRecords = some 1400 ∧
    Pipeline.calculate_top_10_products exampleRecords = [("A", some 900), ("B", some 500)] :=
  ⟨Pipeline.calculate_total_sales_eq_sum, Pipeline.calculate_top_10_is_sorted_take,
    by decide, by decide⟩

/--
C7 (confirmed): `calculate_transaction_per_day` groups the records by the
calendar date of `InvoiceDate` (its group keys are exactly the distinct
dates) and reports, per date, the number of distinct `InvoiceNo` values,
not the row count; on two line items sharing one invoice number on the
same date it reports 1 for that date, not 2.
-/
theorem transactions_per_day_distinct_invoices :
    (∀ (rs : List Pipeline.PipelineRecord) (p : Option (Nat × Nat × Nat) × Nat),
      p ∈ Pipeline.calculate_transaction_per_day rs →
      p.2 = ((rs.filter (fun r => Pipeline.invoiceDateKey r = p.1)).map
        Pipeline.PipelineRecord.invoiceNo).dedup.length) ∧
    (∀ rs : List Pipeline.PipelineRecord,
      (Pipeline.calculate_transaction_per_day rs).map Prod.fst =
        (rs.map Pipeline.invoiceDateKey).dedup) ∧
    Pipeline.calculate_transaction_per_day [invoiceLine1, invoiceLine2] =
      [(some (2010, 12, 1), 1)] ∧
    [invoiceLine1, invoiceLine2].length = 2 := by
  refine ⟨?_, ?_, by decide, by decide⟩
  · intro rs p hp
    unfold Pipeline.calculate_transaction_per_day at hp
    obtain ⟨d, _, rfl⟩ := List.mem_map.mp hp
    rfl
  · intro rs
    unfold Pipeline.calculate_transaction_per_day
    rw [List.map_map]
    exact List.map_id _

/--
Witness for C7: instantiating the per-date count at the concrete two-line
dataset and its single date group: the reported count 1 equals the number
of distinct invoice numbers on 2010-12-01 (the two rows share one).
-/
theorem transactions_per_day_distinct_invoices_witness :
    (1 : Nat) = (([invoiceLine1, invoiceLine2].filter
      (fun r => Pipeline.invoiceDateKey r = some (2010, 12, 1))).map
        Pipeline.PipelineRecord.invoiceNo).dedup.length :=
  transactions_per_day_distinct_invoices.1 [invoiceLine1, invoiceLine2]
    (some (2010, 12, 1), 1) (by decide)

/--
Counterexample for C1: with an empty dataset (a CSV holding only the
header) against an initially empty table, the first call performs a
transfer that leaves the table empty, so the second call's probe again
finds no row and performs a second transfer: two calls perform two data
transfers, and the second call is not the claimed no-op.
-/
theorem bulk_load_twice_empty_dataset_counterexample :
    (Analysis.copy_data_from_csv_to_table storeEmptyTable (some ()) "retail" "online_retail"
      []).bind
      (fun res =>
        Analysis.copy_data_from_csv_to_table res.1 (some ()) "retail" "online_retail" []) =
      Except.ok (storeEmptyTable, true) := rfl

/--
C1 (corrected): provided the dataset holds at least one row, the load is
idempotent: against a table that exists and is empty, the first call
transfers the dataset and a second call probes the table, finds a row,
and performs no transfer; and against a table that already holds at least
one row, a call never transfers, whatever the dataset (in particular
whatever its size).  The nonempty-dataset proviso is forced by the
counterexample: the probe only checks row presence, so loading an empty
dataset never marks the table as loaded.
-/
theorem bulk_load_idempotent_amended (st : Analysis.Store) (sch tbl : String)
    (ds : List Analysis.Row) :
    (st.getTable sch tbl = some [] → ds ≠ [] →
      Analysis.copy_data_from_csv_to_table st (some ()) sch tbl ds =
          Except.ok (st.setTable sch tbl ds, true) ∧
        Analysis.copy_data_from_csv_to_table (st.setTable sch tbl ds) (some ()) sch tbl ds =
          Except.ok (st.setTable sch tbl ds, false)) ∧
    (∀ r rest, st.getTable sch tbl = some (r :: rest) →
      Analysis.copy_data_from_csv_to_table st (some ()) sch tbl ds = Except.ok (st, false)) := by
  constructor
  · intro hempty hds
    constructor
    · simp [Analysis.copy_data_from_csv_to_table, Analysis.execute_query, Analysis.execStore,
        hempty]
    · have h1 : (st.setTable sch tbl ds).getTable sch tbl = some ds :=
        Analysis.getTable_setTable st sch tbl [] ds hempty
      cases ds with
      | nil => exact absurd rfl hds
      | cons d dtl =>
        simp [Analysis.copy_data_from_csv_to_table, Analysis.execute_query, Analysis.execStore,
          h1]
  · intro r rest h1
    simp [Analysis.copy_data_from_csv_to_table, Analysis.execute_query, Analysis.execStore, h1]

/--
Witness for C1: loading one concrete row into the empty
`retail.online_retail` table transfers once and the second call performs
no transfer; against the table that already holds one row, a call with a
dataset of a different size performs no transfer.
-/
theorem bulk_load_idempotent_amended_witness :
    (Analysis.copy_data_from_csv_to_table storeEmptyTable (some ()) "retail" "online_retail"
        [["536365", "85123A"]] =
      Except.ok (storeEmptyTable.setTable "retail" "online_retail" [["536365", "85123A"]],
        true) ∧
     Analysis.copy_data_from_csv_to_table
        (storeEmptyTable.setTable "retail" "online_retail" [["536365", "85123A"]]) (some ())
        "retail" "online_retail" [["536365", "85123A"]] =
      Except.ok (storeEmptyTable.setTable "retail" "online_retail" [["536365", "85123A"]],
        false)) ∧
    Analysis.copy_data_from_csv_to_table storeLoadedTable (some ()) "retail" "online_retail" [] =
      Except.ok (storeLoadedTable, false) :=
  ⟨(bulk_load_idempotent_amended storeEmptyTable "retail" "online_retail"
      [["536365", "85123A"]]).1 rfl (by decide),
   (bulk_load_idempotent_amended storeLoadedTable "retail" "online_retail" []).2
      ["536365", "85123A"] [] rfl⟩

/--
Counterexample for C3: a failure to obtain a connection is not surfaced —
`connect` catches it and returns `None` — and a schema/table-creation
failure is not surfaced either: with no connection
`create_schema_if_not_exists` returns normally, and with a live
connection but a missing schema the server error inside
`create_table_if_not_exists` is caught and the call still returns
normally (printing a success message), so subsequent steps still run.
-/
theorem error_surfacing_counterexample :
    Analysis.connect (Except.error "connection refused") = none ∧
    Analysis.create_schema_if_not_exists emptyStore none "retail" = Except.ok emptyStore ∧
    Analysis.create_table_if_not_exists emptyStore (some ()) "retail" "online_retail" =
      Except.ok emptyStore :=
  ⟨rfl, rfl, rfl⟩

/--
C3 (corrected): errors in connection acquisition and in schema/table
creation are recovered locally with a silent (printed) fallback rather
than surfaced: `connect` returns `None` instead of raising, and
`execute_query` without a fetch catches every database error and returns
normally — in particular `create_table_if_not_exists` reports success on
a store without the schema — so subsequent steps still run against the
dead or failed state.  (Only the bulk-transfer step and the fetch path
run outside a `try` and can propagate an error.)
-/
theorem error_absorption_amended (st : Analysis.Store) (conn : Option Unit)
    (msg sch tbl : String) (hsch : sch ∉ st.schemas) :
    Analysis.connect (Except.error msg) = none ∧
    (∀ q : Analysis.Query, ∃ st',
      Analysis.execute_query st conn q false = Except.ok (st', none)) ∧
    Analysis.create_table_if_not_exists st conn sch tbl = Except.ok st := by
  refine ⟨rfl, ?_, ?_⟩
  · intro q
    cases conn with
    | none => exact ⟨st, rfl⟩
    | some u =>
      cases hq : Analysis.execStore st q with
      | ok p =>
        obtain ⟨st₂, res⟩ := p
        exact ⟨st₂, by simp [Analysis.execute_query, hq]⟩
      | error e =>
        exact ⟨st, by simp [Analysis.execute_query, hq]⟩
  · cases conn with
    | none => rfl
    | some u =>
      have hq : Analysis.execStore st (Analysis.Query.createTable sch tbl) =
          Except.error (Analysis.DbError.undefinedSchema sch) := by
        simp only [Analysis.execStore]
        rw [if_neg hsch]
      simp [Analysis.create_table_if_not_exists, Analysis.execute_query, hq]

/--
Witness for C3: the amended behavior at a concrete store with no schemas:
the failed connection yields `None`, every statement without a fetch
returns normally, and creating a table in the missing schema reports
success.
-/
theorem error_absorption_amended_witness :
    Analysis.connect (Except.error "connection refused") = none ∧
    (∀ q : Analysis.Query, ∃ st',
      Analysis.execute_query emptyStore (some ()) q false = Except.ok (st', none)) ∧
    Analysis.create_table_if_not_exists emptyStore (some ()) "retail" "online_retail" =
      Except.ok emptyStore :=
  error_absorption_amended emptyStore (some ()) "connection refused" "retail" "online_retail"
    (by decide)

/--
Counterexample for C4: in the Spark pipeline normalizer, a record whose
`InvoiceDate` fails to parse under `month/day/year hour:minute` is not a
fatal error: the row is kept and its timestamp is replaced by null.
-/
theorem timestamp_null_not_fatal_counterexample :
    Pipeline.read_csv_file [rawBadTimestamp] = [Pipeline.read_csv_row rawBadTimestamp] ∧
    (Pipeline.read_csv_row rawBadTimestamp).invoiceDate = none ∧
    Retail.parseTimestamp rawBadTimestamp.invoiceDate = none :=
  ⟨rfl, rfl, rfl⟩

theorem read_retail_dataset_aborts (rs : List Retail.RawRecord) (r : Retail.RawRecord)
    (hr : r ∈ rs) (hbad : Retail.parseTimestamp r.invoiceDate = none) :
    ∃ msg, Analysis.read_retail_dataset rs = Except.error msg := by
  induction rs with
  | nil => cases hr
  | cons a tl ih =>
    rcases List.mem_cons.mp hr with h | h
    · subst h
      have hfail : Analysis.normalize_record r =
          Except.error ("time data " ++ r.invoiceDate ++ " does not match format") := by
        unfold Analysis.normalize_record
        rw [hbad]
      refine ⟨"time data " ++ r.invoiceDate ++ " does not match format", ?_⟩
      unfold Analysis.read_retail_dataset
      rw [List.mapM_cons, hfail]
      rfl
    · obtain ⟨msg, hmsg⟩ := ih h
      unfold Analysis.read_retail_dataset at hmsg ⊢
      cases ha : Analysis.normalize_record a with
      | error e =>
        refine ⟨e, ?_⟩
        rw [List.mapM_cons, ha]
        rfl
      | ok b =>
        refine ⟨msg, ?_⟩
        rw [List.mapM_cons, ha, hmsg]
        rfl

/--
C4 (corrected): both normalizers parse `invoice_timestamp` under the
fixed format `month/day/year hour:minute` (24-hour), and the analysis
normalizer re-expresses it as `YYYY-MM-DD HH:MM:SS`
(`"12/1/2010 8:26"` becomes `"2010-12-01 08:26:00"`).  On the analysis
path a value that fails to parse is fatal: the record's normalization is
an error and the whole dataset normalization aborts with an error as soon
as any record's timestamp fails to parse.  On the Spark pipeline path,
however, a failing value is not fatal: the row is kept with a null
timestamp.
-/
theorem timestamp_normalization_amended (r : Retail.RawRecord) (t : Retail.Timestamp)
    (rs : List Retail.RawRecord) :
    (Retail.parseTimestamp r.invoiceDate = some t →
      Analysis.normalize_record r = Except.ok ⟨r.invoiceNo, r.stockCode, r.description,
        r.quantity, t.canonical, r.unitPrice, Analysis.analysis_customer_id r.customerId,
        r.country⟩ ∧
      (Pipeline.read_csv_row r).invoiceDate = some t) ∧
    (Retail.parseTimestamp r.invoiceDate = none →
      Analysis.normalize_record r =
        Except.error ("time data " ++ r.invoiceDate ++ " does not match format") ∧
      (Pipeline.read_csv_row r).invoiceDate = none) ∧
    (r ∈ rs → Retail.parseTimestamp r.invoiceDate = none →
      ∃ msg, Analysis.read_retail_dataset rs = Except.error msg) ∧
    (Retail.parseTimestamp "12/1/2010 8:26").map Retail.Timestamp.canonical =
      some "2010-12-01 08:26:00" := by
  refine ⟨?_, ?_, read_retail_dataset_aborts rs r, by decide⟩
  · intro hp
    constructor
    · unfold Analysis.normalize_record
      rw [hp]
    · show Retail.parseTimestamp r.invoiceDate = some t
      exact hp
  · intro hp
    constructor
    · unfold Analysis.normalize_record
      rw [hp]
    · show Retail.parseTimestamp r.invoiceDate = none
      exact hp

/--
Witness for C4: the well-formed record normalizes on both paths (the
analysis path producing the canonical `"2010-12-01 08:26:00"`), and the
malformed record is an error on the analysis path — aborting the dataset
normalization — while the pipeline path keeps it with a null timestamp.
-/
theorem timestamp_normalization_amended_witness :
    ((Pipeline.read_csv_row rawGoodRecord).invoiceDate = some ⟨2010, 12, 1, 8, 26⟩) ∧
    (Analysis.normalize_record rawBadTimestamp =
      Except.error ("time data " ++ rawBadTimestamp.invoiceDate ++ " does not match format") ∧
      (Pipeline.read_csv_row rawBadTimestamp).invoiceDate = none) ∧
    (∃ msg, Analysis.read_retail_dataset [rawBadTimestamp] = Except.error msg) :=
  ⟨((timestamp_normalization_amended rawGoodRecord ⟨2010, 12, 1, 8, 26⟩ []).1 (by decide)).2,
   (timestamp_normalization_amended rawBadTimestamp ⟨0, 0, 0, 0, 0⟩ []).2.1 (by decide),
   (timestamp_normalization_amended rawBadTimestamp ⟨0, 0, 0, 0, 0⟩ [rawBadTimestamp]).2.2.1
      (by decide) (by decide)⟩
